import Mathlib

/-!
Shallow embedding of the copy-trading bot's wire decoders, trade sizer,
instruction assembler and bundle-confirmation polling loop, together with
theorems checking the natural-language specification against them.

JSON values delivered by the feed are modelled by the inductive `Json`
below; `serde_json::Value` indexing (`json["key"]`), `as_str`, `as_array`
and `as_number().as_u64()` are modelled by `Json.get`, `Json.asStr`,
`Json.asArray` and `Json.asU64`.  JSON numbers are modelled as integers
(the decoders only ever consume them through `as_u64`).  Rust functions
that can panic (`expect`, `unwrap`, out-of-bounds `Vec` indexing) are
modelled in the `Except String` monad, a `.error` value standing for a
panic with the corresponding message.
-/

inductive Json where
  | null : Json
  | bool (b : Bool) : Json
  | num (n : Int) : Json
  | str (s : String) : Json
  | arr (a : List Json) : Json
  | obj (o : List (String × Json)) : Json

namespace Json

/-- Models `json["key"]` on a `serde_json::Value`: field lookup on objects,
`Null` on anything else or when the key is absent. -/
def get (j : Json) (key : String) : Json :=
  match j with
  | .obj o =>
    match o.find? (fun p => p.1 == key) with
    | some p => p.2
    | none => .null
  | _ => .null

/-- Models `Value::as_str`. -/
def asStr : Json → Option String
  | .str s => some s
  | _ => none

/-- Models `Value::as_array`. -/
def asArray : Json → Option (List Json)
  | .arr a => some a
  | _ => none

/-- Models `Value::as_number().and_then(Number::as_u64)`: the number when it is an
integer representable as a `u64`. -/
def asU64 : Json → Option Nat
  | .num n => if 0 ≤ n ∧ n < 2 ^ 64 then some n.toNat else none
  | _ => none

end Json

/-- Lift an `Option` into the panic monad: `None` panics with `msg`
(models Rust's `expect`/`unwrap`). -/
def okOrPanic (msg : String) : Option α → Except String α
  | some a => .ok a
  | none => .error msg

/-- Models `Vec` indexing `v[i]`: panics when `i` is out of bounds. -/
def vecIdx (l : List Json) (i : Nat) : Except String Json :=
  match l.get? i with
  | some v => .ok v
  | none => .error "index out of bounds"

/-- The base58 alphabet used by the `bs58` crate (Bitcoin alphabet). -/
def base58Alphabet : List Char :=
  [ '1', '2', '3', '4', '5', '6', '7', '8', '9',
    'A', 'B', 'C', 'D', 'E', 'F', 'G', 'H', 'J', 'K', 'L', 'M', 'N',
    'P', 'Q', 'R', 'S', 'T', 'U', 'V', 'W', 'X', 'Y', 'Z',
    'a', 'b', 'c', 'd', 'e', 'f', 'g', 'h', 'i', 'j', 'k', 'm', 'n',
    'o', 'p', 'q', 'r', 's', 't', 'u', 'v', 'w', 'x', 'y', 'z' ]

/-- Value of one base58 digit, `none` for a character outside the alphabet. -/
def base58DigitVal (c : Char) : Option Nat :=
  let i := base58Alphabet.indexOf c
  if i < 58 then some i else none

/-- Big-endian byte expansion of a natural number (empty for 0); the first
argument is fuel, which `natToBytesBE` instantiates large enough. -/
def natToBytesBEAux : Nat → Nat → List Nat
  | 0, _ => []
  | _ + 1, 0 => []
  | fuel + 1, n => natToBytesBEAux fuel (n / 256) ++ [n % 256]

def natToBytesBE (n : Nat) : List Nat := natToBytesBEAux n n

/-- Models `bs58::decode(s).into_vec()`: `none` when `s` holds a character
outside the alphabet; otherwise one leading zero byte per leading `'1'`,
followed by the big-endian bytes of the base58 value of `s`. -/
def base58Decode (s : String) : Option (List Nat) :=
  let cs := s.data
  if cs.all (fun c => (base58DigitVal c).isSome) then
    let value := cs.foldl (fun acc c => acc * 58 + ((base58DigitVal c).getD 0)) 0
    let zeros := (cs.takeWhile (fun c => c == '1')).length
    some (List.replicate zeros 0 ++ natToBytesBE value)
  else none

/-- Models `u64::from_le_bytes` / `u32::from_le_bytes` on a little-endian byte list. -/
def leBytesToNat (l : List Nat) : Nat :=
  l.foldr (fun b acc => acc * 256 + b) 0

/-- Little-endian byte expansion of `n` on `w` bytes (`to_le_bytes`). -/
def natToLeBytes : Nat → Nat → List Nat
  | 0, _ => []
  | w + 1, n => n % 256 :: natToLeBytes w (n / 256)

/-- Models `str::parse::<u64>`: optional leading `'+'`, at least one ASCII digit,
value below `2 ^ 64`. -/
def parseU64 (s : String) : Option Nat :=
  let cs := match s.data with
    | '+' :: rest => rest
    | cs => cs
  if cs ≠ [] ∧ cs.all Char.isDigit then
    let v := cs.foldl (fun a c => a * 10 + (c.toNat - 48)) 0
    if v < 2 ^ 64 then some v else none
  else none

/-! ### Program-id and opcode constants (`src/constants.rs`, textual form) -/

def PUMP_FUN_PROGRAM : String := "6EF8rrecthR5Dkzon8Nwu78hRvfCKubJ14M5uBEwF6P"
def PUMP_FUN_FEE_RECIPIENT : String := "CebN5WGQ4jvEPvsVU4EoHEpgzq1VV7AbicfhtW4xC9iM"
def SPL_TOKEN_PROGRAM : String := "TokenkegQfeZyiNwAJbNbGKPFXCWuBvf9Ss623VQ5DA"
def SYSTEM_PROGRAM : String := "11111111111111111111111111111111"
def COMPUTE_BUDGET_PROGRAM : String := "ComputeBudget111111111111111111111111111111"
def RAYDIUM_LIQUIDITY_POOL_V4_PROGRAM : String :=
  "675kPX9MHTjS2zt1qfr1NYHuzeLXfQM9H24wFSUt1Mp8"
def SERUM_PROGRAM : String := "srmqPvymJeFKQ4zGQed1GFppgkRHL9kaELCbyksJtPX"
/-- Models `Pubkey::default().to_string()` (the all-zero key). -/
def DEFAULT_PUBKEY : String := "11111111111111111111111111111111"

def PUMP_FUN_ACTION_BUY : List Nat := [102, 6, 61, 18, 1, 218, 235, 234]
def PUMP_FUN_ACTION_SELL : List Nat := [51, 230, 133, 164, 1, 127, 131, 173]

def RAYDIUM_SWAP_BASE_IN_INSTRUCTION : Nat := 9
def RAYDIUM_SWAP_BASE_OUT_INSTRUCTION : Nat := 11
def RAYDIUM_ACCOUNTS_LEN_SWAP_BASE_IN : Nat := 17
def BOT_RAYDIUM_OPERATION_BUY : Nat := 1
def BOT_RAYDIUM_OPERATION_SELL : Nat := 2

/-! ### Shared extraction helpers (`src/src/bot/tx_common.rs`) -/

/-- Models `GetSignature::get_signature`:
`json["params"]["result"]["signature"].as_str()`. -/
def getSignature (json : Json) : Option String :=
  (((json.get "params").get "result").get "signature").asStr

/-- Models `json["params"]["result"]["transaction"]["transaction"]["message"]["instructions"]`. -/
def msgInstructions (json : Json) : Json :=
  (((((json.get "params").get "result").get "transaction").get
      "transaction").get "message").get "instructions"

/-- Models `json["params"]["result"]["transaction"]["meta"]["innerInstructions"]`. -/
def metaInnerInstructions (json : Json) : Json :=
  ((((json.get "params").get "result").get "transaction").get
      "meta").get "innerInstructions"

/-- Models `GetTxCommon::pubkey_to_string`. -/
def pubkeyToString (json : Json) : String :=
  match json.asStr with
  | some s => s
  | none => "not found"

/-- One step of the loop body of `GetComputeData::get_compute_data` for a
single instruction, threading the `(compute_unit_limit, compute_unit_price)`
state.  The source `unwrap`s the `programId` string, the base58 decoding and
the `try_into` of the remaining bytes, and indexes `decoded_bytes[0]`; each
of those panics is an `.error`. -/
def computeDataStep (st : Nat × Nat) (instruction : Json) :
    Except String (Nat × Nat) := do
  let programId ← okOrPanic "called `Option::unwrap()` on a `None` value"
    (instruction.get "programId").asStr
  if programId = COMPUTE_BUDGET_PROGRAM then
    let ixData ← okOrPanic "called `Option::unwrap()` on a `None` value"
      (instruction.get "data").asStr
    let decodedBytes ← okOrPanic "called `Result::unwrap()` on an `Err` value"
      (base58Decode ixData)
    match decodedBytes with
    | [] => .error "index out of bounds"
    | b :: rest =>
      if b = 2 then
        if rest.length = 4 then .ok (leBytesToNat rest, st.2)
        else .error "called `Result::unwrap()` on an `Err` value"
      else if b = 3 then
        if rest.length = 8 then .ok (st.1, leBytesToNat rest)
        else .error "called `Result::unwrap()` on an `Err` value"
      else .ok st
  else .ok st

/-- Models `GetComputeData::get_compute_data`: `.ok none` models the `?` early
return on a missing instruction array, `.error` a panic inside the loop. -/
def getComputeData (json : Json) : Except String (Option (Nat × Nat)) :=
  match (msgInstructions json).asArray with
  | none => .ok none
  | some instructions => do
    let st ← instructions.foldlM computeDataStep (0, 0)
    .ok (some st)

/-! ### Pump.fun wire decoder (`src/src/bot/pump_fun_tx.rs`) -/

structure PumpFunAccounts where
  mint : String
  bonding_curve : String
  associated_bonding_curve : String
deriving DecidableEq, Repr

structure PumpIxData where
  instruction : List Nat
  instruction_name : String
  amount : Nat
  sol : Nat
deriving DecidableEq, Repr

structure PumpInnerIxData where
  amount : Nat
  sol : Nat
  fee : Nat
deriving DecidableEq, Repr

structure PumpFunTx where
  signature : Option String := none
  accounts : Option PumpFunAccounts := none
  ix_data : Option PumpIxData := none
  inner_ix_data : Option PumpInnerIxData := none
  compute_unit_limit : Nat := 0
  compute_unit_price : Nat := 0
deriving DecidableEq, Repr

instance : Inhabited PumpFunTx := ⟨{}⟩

/-- The predicate of the instruction search duplicated inside
`PumpFunTx::get_accounts` and `PumpFunTx::get_pump_fun_data`: the
instruction's `programId` string equals the Pump.fun program id. -/
def isPumpFunIx (instruction : Json) : Bool :=
  match (instruction.get "programId").asStr with
  | some programId => programId = PUMP_FUN_PROGRAM
  | none => false

/-- The instruction search duplicated inside `PumpFunTx::get_accounts` and
`PumpFunTx::get_pump_fun_data`: the first top-level instruction whose
`programId` string equals the Pump.fun program id. -/
def findPumpFunInstruction (json : Json) : Option Json := do
  let instructions ← (msgInstructions json).asArray
  instructions.find? isPumpFunIx

/-- Models `PumpFunTx::get_accounts`. -/
def pumpGetAccounts (json : Json) : Option PumpFunAccounts := do
  let pumpFunInstruction ← findPumpFunInstruction json
  let accounts ← (pumpFunInstruction.get "accounts").asArray
  if accounts.length ≠ 12 then none
  else
    some { mint := pubkeyToString (accounts.getD 2 .null)
           bonding_curve := pubkeyToString (accounts.getD 3 .null)
           associated_bonding_curve := pubkeyToString (accounts.getD 4 .null) }

/-- The tail of `PumpFunTx::get_pump_fun_data` after base58 decoding:
require at least 24 bytes, split off the 8-byte opcode and the two
little-endian `u64` fields. -/
def pumpParseIxBytes (decodedBytes : List Nat) : Option (List Nat × Nat × Nat) :=
  if decodedBytes.length < 24 then none
  else
    some (decodedBytes.take 8,
      leBytesToNat ((decodedBytes.drop 8).take 8),
      leBytesToNat ((decodedBytes.drop 16).take 8))

/-- Models `PumpFunTx::get_pump_fun_data`. -/
def getPumpFunData (json : Json) : Option (List Nat × Nat × Nat) := do
  let pumpFunInstruction ← findPumpFunInstruction json
  let ixData ← (pumpFunInstruction.get "data").asStr
  let decodedBytes ← base58Decode ixData
  pumpParseIxBytes decodedBytes

/-- Predicate for the spl-token transfer matched in `PumpFunTx::get_amounts`:
program id is the token program and `parsed.info.authority` equals the
bonding curve. -/
def isSplTransferFromCurve (accounts : PumpFunAccounts) (instruction : Json) : Bool :=
  (match (instruction.get "programId").asStr with
   | some programId => programId = SPL_TOKEN_PROGRAM
   | none => false) &&
  (match (((instruction.get "parsed").get "info").get "authority").asStr with
   | some authority => authority = accounts.bonding_curve
   | none => false)

/-- Predicate for the native transfer to the bonding curve. -/
def isSolTransferToCurve (accounts : PumpFunAccounts) (instruction : Json) : Bool :=
  (match (instruction.get "programId").asStr with
   | some programId => programId = SYSTEM_PROGRAM
   | none => false) &&
  (match (((instruction.get "parsed").get "info").get "destination").asStr with
   | some destination => destination = accounts.bonding_curve
   | none => false)

/-- Predicate for the native transfer to the fixed fee recipient. -/
def isFeeTransfer (instruction : Json) : Bool :=
  (match (instruction.get "programId").asStr with
   | some programId => programId = SYSTEM_PROGRAM
   | none => false) &&
  (match (((instruction.get "parsed").get "info").get "destination").asStr with
   | some destination => destination = PUMP_FUN_FEE_RECIPIENT
   | none => false)

/-- The flattened list of child instructions scanned by
`PumpFunTx::get_amounts` (groups without an `instructions` array are
skipped with `continue`). -/
def flattenInnerInstructions (innerInstructions : List Json) : List Json :=
  innerInstructions.foldl (fun acc innerInstruction =>
    match (innerInstruction.get "instructions").asArray with
    | some instructions => acc ++ instructions
    | none => acc) []

/-- The loop of `PumpFunTx::get_amounts` keeps the **last** instruction
matching each predicate. -/
def lastMatch (p : Json → Bool) (l : List Json) : Option Json :=
  l.foldl (fun st instruction => if p instruction then some instruction else st) none

/-- Models `PumpFunTx::get_amounts`. -/
def pumpGetAmounts (json : Json) (accounts : PumpFunAccounts) :
    Option (Nat × Nat × Nat) := do
  let innerInstructions ← (metaInnerInstructions json).asArray
  let all := flattenInnerInstructions innerInstructions
  let splTokenTransferIx := lastMatch (isSplTransferFromCurve accounts) all
  let solTransferIx := lastMatch (isSolTransferToCurve accounts) all
  let feeTransferIx := lastMatch isFeeTransfer all
  let amount := match splTokenTransferIx with
    | some ix =>
      match ((((ix.get "parsed").get "info").get "amount").asStr) with
      | some amount => (parseU64 amount).getD 0
      | none => 0
    | none => 0
  let sol := match solTransferIx with
    | some ix => ((((ix.get "parsed").get "info").get "lamports").asU64).getD 0
    | none => 0
  let fee := match feeTransferIx with
    | some ix => ((((ix.get "parsed").get "info").get "lamports").asU64).getD 0
    | none => 0
  some (amount, sol, fee)

/-- Models `PumpFunTx::new`.  The argument models the result of
`serde_json::from_str(payload)`: `none` for a payload that is not valid
JSON, in which case `.expect("Invalid JSON")` panics. -/
def pumpFunNew (payload : Option Json) : Except String PumpFunTx := do
  let json ← okOrPanic "Invalid JSON" payload
  match getSignature json with
  | none => .ok {}
  | some signature =>
    match pumpGetAccounts json with
    | none => .ok { signature := some signature }
    | some accounts =>
      match getPumpFunData json with
      | none => .ok { signature := some signature, accounts := some accounts }
      | some (instruction, amount, sol) =>
        let instruction_name :=
          if instruction = PUMP_FUN_ACTION_BUY then "buy"
          else if instruction = PUMP_FUN_ACTION_SELL then "sell"
          else "unknown"
        let ix_data : PumpIxData :=
          { instruction, instruction_name, amount, sol }
        match pumpGetAmounts json accounts with
        | none =>
          .ok { signature := some signature, accounts := some accounts,
                ix_data := some ix_data }
        | some (amount, sol, fee) => do
          let computeData ← getComputeData json
          let (compute_unit_limit, compute_unit_price) := computeData.getD (0, 0)
          .ok { signature := some signature, accounts := some accounts,
                ix_data := some ix_data,
                inner_ix_data := some { amount, sol, fee },
                compute_unit_limit, compute_unit_price }

/-! ### Raydium wire decoder (`src/src/bot/raydium_meme_tx.rs`) -/

structure RaydiumMemeTradeData where
  meme_mint : String
  operation : Nat
deriving DecidableEq, Repr

structure RaydiumSwapBaseInData where
  instruction : Nat
  amount_in : Nat
  minimum_amount_out : Nat
deriving DecidableEq, Repr

structure RaydiumSwapBaseOutData where
  instruction : Nat
  max_amount_in : Nat
  amount_out : Nat
deriving DecidableEq, Repr

inductive RaydiumSwapData where
  | baseIn (d : RaydiumSwapBaseInData)
  | baseOut (d : RaydiumSwapBaseOutData)
deriving DecidableEq, Repr

structure RaydiumInnerIxData where
  source_amount : Nat
  dest_amount : Nat
deriving DecidableEq, Repr

structure RaydiumAccounts where
  amm_id : String
  amm_open_orders : String
  amm_target_orders : String
  pool_coin_token_account : String
  pool_pc_token_account : String
  serum_market : String
  serum_bids : String
  serum_asks : String
  serum_event_queue : String
  serum_coin_vault : String
  serum_pc_vault : String
  serum_vault_signer : String
  user_source_token_account : String
  user_destination_token_account : String
  user_source_owner : String
deriving DecidableEq, Repr

structure RaydiumMemeTx where
  signature : Option String := none
  accounts : Option RaydiumAccounts := none
  ix_data : Option RaydiumSwapData := none
  inner_ix_data : Option RaydiumInnerIxData := none
  meme_trade_data : Option RaydiumMemeTradeData := none
  compute_unit_limit : Nat := 0
  compute_unit_price : Nat := 0
deriving DecidableEq, Repr

/-- The `is_raydium_swap` closure of
`RaydiumMemeTx::get_raydium_swap_instruction`. -/
def isRaydiumSwap (instruction : Json) : Bool :=
  match (instruction.get "programId").asStr with
  | some programId => programId = RAYDIUM_LIQUIDITY_POOL_V4_PROGRAM
  | none => false

/-- Models `RaydiumMemeTx::get_raydium_swap_instruction`: search the top-level
instruction list first (a missing list short-circuits to `none`), then each
inner-instruction group. -/
def getRaydiumSwapInstruction (json : Json) : Option Json :=
  match (msgInstructions json).asArray with
  | none => none
  | some instructions =>
    match instructions.find? isRaydiumSwap with
    | some instruction => some instruction
    | none =>
      match (metaInnerInstructions json).asArray with
      | none => none
      | some innerInstructions =>
        innerInstructions.findSome? (fun innerIxGroup =>
          match (innerIxGroup.get "instructions").asArray with
          | some instructions => instructions.find? isRaydiumSwap
          | none => none)

/-- Models `RaydiumMemeTx::get_accounts`.  The source performs **no length check**
before `Vec` indexing; each access is through `vecIdx`, so an out-of-bounds
access is an `.error` (a panic).  `.ok none` models the `None` return when
the instruction has no `accounts` array. -/
def raydiumGetAccounts (raydiumSwapInstruction : Json) :
    Except String (Option RaydiumAccounts) :=
  match (raydiumSwapInstruction.get "accounts").asArray with
  | none => .ok none
  | some accounts => do
    let amm_id ← vecIdx accounts 1
    let amm_open_orders ← vecIdx accounts 3
    let kTarget ←
      if accounts.length = RAYDIUM_ACCOUNTS_LEN_SWAP_BASE_IN + 1 then do
        let t ← vecIdx accounts 4
        pure (4, pubkeyToString t)
      else
        pure (3, DEFAULT_PUBKEY)
    let k := kTarget.1
    let pool_coin_token_account ← vecIdx accounts (k + 1)
    let pool_pc_token_account ← vecIdx accounts (k + 2)
    let serum_market ← vecIdx accounts (k + 4)
    let serum_bids ← vecIdx accounts (k + 5)
    let serum_asks ← vecIdx accounts (k + 6)
    let serum_event_queue ← vecIdx accounts (k + 7)
    let serum_coin_vault ← vecIdx accounts (k + 8)
    let serum_pc_vault ← vecIdx accounts (k + 9)
    let serum_vault_signer ← vecIdx accounts (k + 10)
    let user_source_token_account ← vecIdx accounts (k + 11)
    let user_destination_token_account ← vecIdx accounts (k + 12)
    let user_source_owner ← vecIdx accounts (k + 13)
    .ok (some
      { amm_id := pubkeyToString amm_id
        amm_open_orders := pubkeyToString amm_open_orders
        amm_target_orders := kTarget.2
        pool_coin_token_account := pubkeyToString pool_coin_token_account
        pool_pc_token_account := pubkeyToString pool_pc_token_account
        serum_market := pubkeyToString serum_market
        serum_bids := pubkeyToString serum_bids
        serum_asks := pubkeyToString serum_asks
        serum_event_queue := pubkeyToString serum_event_queue
        serum_coin_vault := pubkeyToString serum_coin_vault
        serum_pc_vault := pubkeyToString serum_pc_vault
        serum_vault_signer := pubkeyToString serum_vault_signer
        user_source_token_account := pubkeyToString user_source_token_account
        user_destination_token_account := pubkeyToString user_destination_token_account
        user_source_owner := pubkeyToString user_source_owner })

inductive BotError where
  | invalidInstructionData
deriving DecidableEq, Repr

/-- Models `RaydiumMemeTx::unpack_u64`. -/
def unpackU64 (input : List Nat) : Except BotError (Nat × List Nat) :=
  if input.length ≥ 8 then
    .ok (leBytesToNat (input.take 8), input.drop 8)
  else
    .error .invalidInstructionData

/-- Models `RaydiumMemeTx::get_instruction_data`. -/
def getInstructionData (input : String) : Option RaydiumSwapData :=
  match base58Decode input with
  | none => none
  | some input =>
    match input with
    | [] => none
    | tag :: rest =>
      if tag = RAYDIUM_SWAP_BASE_IN_INSTRUCTION then
        match unpackU64 rest with
        | .error _ => none
        | .ok (amount_in, rest) =>
          match unpackU64 rest with
          | .error _ => none
          | .ok (minimum_amount_out, _rest) =>
            some (.baseIn
              { instruction := RAYDIUM_SWAP_BASE_IN_INSTRUCTION
                amount_in, minimum_amount_out })
      else if tag = RAYDIUM_SWAP_BASE_OUT_INSTRUCTION then
        match unpackU64 rest with
        | .error _ => none
        | .ok (max_amount_in, rest) =>
          match unpackU64 rest with
          | .error _ => none
          | .ok (amount_out, _rest) =>
            some (.baseOut
              { instruction := RAYDIUM_SWAP_BASE_OUT_INSTRUCTION
                max_amount_in, amount_out })
      else none

/-- Models `RaydiumMemeTx::get_amounts`: flatten the inner-instruction groups
(`unwrap_or` an empty list), keep spl-token instructions, and for each with
a parseable string `amount` classify by user source / destination account,
summing over all matches. -/
def raydiumGetAmounts (json : Json) (memeAccounts : RaydiumAccounts) :
    Option (Nat × Nat) :=
  match (metaInnerInstructions json).asArray with
  | none => none
  | some innerInstructions =>
    let all := flattenInnerInstructions innerInstructions
    let contributions := (all.filter (fun ix =>
        (ix.get "programId").asStr == some SPL_TOKEN_PROGRAM)).filterMap
      (fun ix =>
        let info := (ix.get "parsed").get "info"
        match (info.get "amount").asStr with
        | none => none
        | some s =>
          match parseU64 s with
          | none => none
          | some amount =>
            if (info.get "source").asStr == some memeAccounts.user_source_token_account then
              some (amount, 0)
            else if (info.get "destination").asStr ==
                some memeAccounts.user_destination_token_account then
              some (0, amount)
            else none)
    some (contributions.foldl (fun st c => (st.1 + c.1, st.2 + c.2)) (0, 0))

/-- A model of `RaydiumMemeTx::get_and_validate_meme_mint`, whose result
depends on two on-chain account fetches (the ExternalStateResolver
boundary).  A `.error` models the panics inside it
(`async_connection().unwrap()`, `TokenAccount::unpack(..).unwrap()`);
`.ok none` a rejected/unfetchable pool; `.ok (some d)` a validated
Pump.fun pool with its buy/sell classification. -/
def RaydiumResolver : Type := RaydiumAccounts → Except String (Option RaydiumMemeTradeData)

/-- Models `RaydiumMemeTx::new`, with the on-chain classification step abstracted
as `resolver`.  The first argument models `serde_json::from_str(payload)`:
`none` for a payload that is not valid JSON, on which
`.expect("Invalid JSON")` panics. -/
def raydiumNew (payload : Option Json) (resolver : RaydiumResolver) :
    Except String RaydiumMemeTx := do
  let json ← okOrPanic "Invalid JSON" payload
  match getSignature json with
  | none => .ok {}
  | some signature =>
    match getRaydiumSwapInstruction json with
    | none => .ok { signature := some signature }
    | some raydiumSwapIx => do
      let accountsOpt ← raydiumGetAccounts raydiumSwapIx
      match accountsOpt with
      | none => .ok { signature := some signature }
      | some accounts => do
        let memeTradeDataOpt ← resolver accounts
        match memeTradeDataOpt with
        | none => .ok { signature := some signature, accounts := some accounts }
        | some memeTradeData =>
          match (raydiumSwapIx.get "data").asStr with
          | none => .ok { signature := some signature, accounts := some accounts }
          | some data =>
            match getInstructionData data with
            | none => .ok { signature := some signature, accounts := some accounts }
            | some ixData =>
              match raydiumGetAmounts json accounts with
              | none =>
                .ok { signature := some signature, accounts := some accounts,
                      ix_data := some ixData }
              | some (source_amount, dest_amount) => do
                let computeData ← getComputeData json
                let (compute_unit_limit, compute_unit_price) := computeData.getD (0, 0)
                .ok { signature := some signature, accounts := some accounts,
                      ix_data := some ixData,
                      inner_ix_data := some { source_amount, dest_amount },
                      meme_trade_data := some memeTradeData,
                      compute_unit_limit, compute_unit_price }

/-! ### Instruction assembly (`src/src/bot/raydium_meme_tx_send.rs`,
`src/src/bot/pump_fun_tx_send.rs`, `src/src/agentic_tools/tool_pump_fun_buy.rs`)

Public keys are kept in their textual form; `get_associated_token_address`
(a hash-based derivation performed by an external crate) is passed in as an
abstract function `ata owner mint`, and the instruction built by
`create_associated_token_account_idempotent` is likewise kept as an
abstract constructor whose internals no claim depends on. -/

structure AccountMeta where
  pubkey : String
  is_signer : Bool
  is_writable : Bool
deriving DecidableEq, Repr

structure Instruction where
  program_id : String
  accounts : List AccountMeta
  data : List Nat
deriving DecidableEq, Repr

def WSOL_MINT : String := "So11111111111111111111111111111111111111112"
def ATA_PROGRAM : String := "ATokenGPvbdGVxr1b2hvZbsiqW5xWH25efTNsLJA8knL"
def RAYDIUM_AMM_AUTHORITY : String := "5Q544fKrFoe6tsEbD7S8EmxGTJYAKtTVhAW5Q5pge4j1"

/-- Models `create_associated_token_account_idempotent(funder, owner, mint, token_program)`:
kept abstract (external crate); only its identity as "the idempotent
ATA-creation instruction for `mint`" matters to the claims. -/
def createAtaIdempotentIx (funder owner mint : String) : Instruction :=
  { program_id := ATA_PROGRAM
    accounts := [ { pubkey := funder, is_signer := true, is_writable := true },
                  { pubkey := owner, is_signer := false, is_writable := false },
                  { pubkey := mint, is_signer := false, is_writable := false } ]
    data := [1] }

/-- Models `AccountMeta::new(pubkey, false)` via the `writeable` closure of
`RaydiumMemeTxSend::compose_and_send`. -/
def writeableMeta (pubkey : String) : AccountMeta :=
  { pubkey, is_signer := false, is_writable := true }

/-- Models `AccountMeta::new_readonly(pubkey, false)` via the `readonly` closure. -/
def readonlyMeta (pubkey : String) : AccountMeta :=
  { pubkey, is_signer := false, is_writable := false }

/-- The account list of the Raydium swap instruction assembled by
`RaydiumMemeTxSend::compose_and_send` (lines 126-163): base accounts, the
optional target-orders account (pushed only when `amm_target_orders`
differs from the default pubkey), pool and Serum accounts, then the three
user accounts. -/
def raydiumSwapAccountList (accounts : RaydiumAccounts)
    (userSourceTokenAccount userDestinationTokenAccount userSourceOwner : String) :
    List AccountMeta :=
  ([ readonlyMeta SPL_TOKEN_PROGRAM,
     writeableMeta accounts.amm_id,
     readonlyMeta RAYDIUM_AMM_AUTHORITY,
     writeableMeta accounts.amm_open_orders ] ++
   (if accounts.amm_target_orders ≠ DEFAULT_PUBKEY then
      [writeableMeta accounts.amm_target_orders]
    else []) ++
   [ writeableMeta accounts.pool_coin_token_account,
     writeableMeta accounts.pool_pc_token_account,
     writeableMeta SERUM_PROGRAM,
     writeableMeta accounts.serum_market,
     writeableMeta accounts.serum_bids,
     writeableMeta accounts.serum_asks,
     writeableMeta accounts.serum_event_queue,
     writeableMeta accounts.serum_coin_vault,
     writeableMeta accounts.serum_pc_vault,
     writeableMeta accounts.serum_vault_signer ] ++
   [ { pubkey := userSourceTokenAccount, is_signer := false, is_writable := true },
     { pubkey := userDestinationTokenAccount, is_signer := false, is_writable := true },
     { pubkey := userSourceOwner, is_signer := true, is_writable := true } ])

/-- Models `RaydiumMemeTxSend::compose_and_send` up to the hand-off to
`bfg9000_send_smart_tx`: the returned list is the `instructions` vector
passed to the submitter.  `ata owner mint` models
`get_associated_token_address`; `userSourceOwner` the signer's public key.
The error strings are the source's `ok_or`/`Err` messages. -/
def raydiumComposeAndSend (tx : RaydiumMemeTx) (ata : String → String → String)
    (userSourceOwner : String) (maxSolBuy : Nat) :
    Except String (List Instruction) := do
  let memeTradeData ← okOrPanic "No meme trade data" tx.meme_trade_data
  if memeTradeData.operation = BOT_RAYDIUM_OPERATION_SELL then
    .error "Sell operation is not supported"
  else do
  let accounts ← okOrPanic "No meme accounts" tx.accounts
  let ixData ← okOrPanic "No instruction data" tx.ix_data
  let _innerIxData ← okOrPanic "No innner instructions data" tx.inner_ix_data
  let userSourceTokenAccount ←
    if memeTradeData.operation = BOT_RAYDIUM_OPERATION_BUY then
      .ok (ata userSourceOwner WSOL_MINT)
    else if memeTradeData.operation = BOT_RAYDIUM_OPERATION_SELL then
      .ok (ata userSourceOwner memeTradeData.meme_mint)
    else .error "Unknown operation"
  let userDestinationTokenAccount ←
    if memeTradeData.operation = BOT_RAYDIUM_OPERATION_BUY then
      .ok (ata userSourceOwner memeTradeData.meme_mint)
    else if memeTradeData.operation = BOT_RAYDIUM_OPERATION_SELL then
      .ok (ata userSourceOwner WSOL_MINT)
    else .error "Unknown operation"
  let ataInstructions :=
    if memeTradeData.operation = BOT_RAYDIUM_OPERATION_BUY then
      [createAtaIdempotentIx userSourceOwner userSourceOwner memeTradeData.meme_mint]
    else []
  let opcode :=
    match ixData with
    | .baseIn swap => swap.instruction
    | .baseOut swap => swap.instruction
  let data := opcode :: (natToLeBytes 8 maxSolBuy ++ natToLeBytes 8 0)
  let raydiumSwapIx : Instruction :=
    { program_id := RAYDIUM_LIQUIDITY_POOL_V4_PROGRAM
      accounts := raydiumSwapAccountList accounts
        userSourceTokenAccount userDestinationTokenAccount userSourceOwner
      data }
  .ok (ataInstructions ++ [raydiumSwapIx])

/-- Outcome of `PumpFunTxSend::compose_and_send` at the point it calls
`send_pump_fun_tx`: which decoded accounts it uses and the trade
direction.  The numeric body of each branch (order sizing and
slippage/fee bounds) is floating-point arithmetic that contains no branch
and does not affect which of the outcomes below is reached; it is outside
this model (the spec itself flags it as a precision risk). -/
structure PumpComposePlan where
  accounts : PumpFunAccounts
  is_buy : Bool
deriving DecidableEq, Repr

/-- Models `PumpFunTxSend::compose_and_send` control flow: decode the payload,
require accounts and instruction data, then branch on the opcode (Buy
additionally requires the inner-instruction amounts).  Note: neither
`max_sol_buy` nor `slippage_percent` is inspected by any branch. -/
def pumpFunComposeAndSend (payload : Option Json)
    (_maxSolBuy _slippagePercent : Nat) : Except String PumpComposePlan := do
  let pumpFunTx ← pumpFunNew payload
  let accounts ← okOrPanic "Unknown tx by meme accounts" pumpFunTx.accounts
  let ixData ← okOrPanic "Unknown tx by instruction data" pumpFunTx.ix_data
  if ixData.instruction = PUMP_FUN_ACTION_BUY then do
    let _innerIxData ← okOrPanic "Unknown tx by inner instructions" pumpFunTx.inner_ix_data
    .ok { accounts, is_buy := true }
  else if ixData.instruction = PUMP_FUN_ACTION_SELL then
    .ok { accounts, is_buy := false }
  else
    .error "Unknown instruction"

/-! ### The direct-buy agentic tool (`src/src/agentic_tools/tool_pump_fun_buy.rs`)

`f64` request fields are modelled as rationals; every JSON-representable
double is a finite rational, and the validation comparisons against `0`
and `100` coincide with the rational ones. -/

structure PumpFunBuyArgs where
  mint : String
  max_sol : ℚ
  slippage : ℚ
deriving DecidableEq

inductive PumpFunError where
  | invalidSolAmount (amount : ℚ)
  | invalidSlippage (slippage : ℚ)
  | noAccountsConfigured (mint : String)
deriving DecidableEq

/-- One cached venue-account record from the database. -/
structure DbPumpFunAccounts where
  mint_address : String
  bonding_curve : String
  associated_bonding_curve : String
  decimals : Nat
  price : ℚ
deriving DecidableEq

/-- A database handle: lookups by mint address and by upper-cased name,
each either failing (`.error`, mapped to `NoAccountsConfigured` by the
source) or returning an optional record. -/
structure PumpFunDb where
  byMint : String → Except Unit (Option DbPumpFunAccounts)
  byName : String → Except Unit (Option DbPumpFunAccounts)

/-- Models `ToolPumpFunBuy::call` up to the hand-off to `PumpFunTxSend::buy`: the
two validations, then the two-step cache lookup.  An `.ok` result means
the tool proceeds to unit conversion and submission with the returned
record (the remaining body is branch-free float conversion plus the
network call). -/
def toolPumpFunBuyCall (db : PumpFunDb) (args : PumpFunBuyArgs) :
    Except PumpFunError DbPumpFunAccounts :=
  if args.max_sol ≤ 0 then .error (.invalidSolAmount args.max_sol)
  else if args.slippage < 0 ∨ args.slippage > 100 then
    .error (.invalidSlippage args.slippage)
  else
    match db.byMint args.mint with
    | .error _ => .error (.noAccountsConfigured args.mint)
    | .ok (some accounts) => .ok accounts
    | .ok none =>
      match db.byName args.mint.toUpper with
      | .error _ => .error (.noAccountsConfigured args.mint)
      | .ok (some accounts) => .ok accounts
      | .ok none => .error (.noAccountsConfigured args.mint)

/-! ### Bundle-confirmation polling
(`SendSmartTx::bfg9000_send_smart_tx`, `src/src/bot/tx_common.rs` lines 274-325)

One `PollRound` records what the environment supplies to one iteration of
the `while` loop: the wall-clock time elapsed when the guard is evaluated
(milliseconds), the chain block height the guard fetches, and the JSON
response of `get_bundle_statuses`.  Transport errors of the `?` operators
are outside the model (each round carries a delivered response). -/

structure PollRound where
  elapsedMs : Nat
  blockHeight : Nat
  bundleStatuses : Json

/-- Models `Duration::from_secs(60)` in milliseconds. -/
def POLL_TIMEOUT_MS : Nat := 60000

/-- serde_json `Value` indexing by position: element of an array, `Null`
otherwise (this `Value` indexing, unlike `Vec` indexing, never panics). -/
def jsonIdxNat (j : Json) (i : Nat) : Json :=
  match j with
  | .arr a => a.getD i .null
  | _ => .null

/-- The body of one poll iteration on the relay's response: `.ok (some t)`
when `result.value` is a non-empty array whose head has
`confirmation_status == "confirmed"` (`t` being `transactions[0]`, whose
`as_str().unwrap()` panics — `.error` — when absent); `.ok none` when the
loop keeps waiting. -/
def pollCheck (bundleStatuses : Json) : Except String (Option String) :=
  match ((bundleStatuses.get "result").get "value").asArray with
  | none => .ok none
  | some values =>
    match values with
    | [] => .ok none
    | v0 :: _ =>
      match (v0.get "confirmation_status").asStr with
      | none => .ok none
      | some status =>
        if status = "confirmed" then do
          let txId ← okOrPanic "called `Option::unwrap()` on a `None` value"
            (jsonIdxNat (v0.get "transactions") 0).asStr
          .ok (some txId)
        else .ok none

/-- The guard of the polling `while` loop:
`start.elapsed() < timeout || get_block_height().await? <= last_valid_block_height`. -/
def pollGuard (lastValidBlockHeight : Nat) (round : PollRound) : Prop :=
  round.elapsedMs < POLL_TIMEOUT_MS ∨ round.blockHeight ≤ lastValidBlockHeight

instance (lastValidBlockHeight : Nat) (round : PollRound) :
    Decidable (pollGuard lastValidBlockHeight round) :=
  inferInstanceAs (Decidable
    (round.elapsedMs < POLL_TIMEOUT_MS ∨ round.blockHeight ≤ lastValidBlockHeight))

/-- Result of the polling phase: `success` is the `Ok(tx_id)` return,
`timedOut` the `HeliusError::Timeout` error after the loop exits, and
`pending` means the supplied trace ended while the loop would still be
iterating. -/
inductive PollOutcome where
  | success (txId : String)
  | timedOut
  | pending
deriving DecidableEq, Repr

/-- The confirmation-polling loop of `bfg9000_send_smart_tx`, driven by a
finite trace of rounds. -/
def pollLoop (lastValidBlockHeight : Nat) : List PollRound → Except String PollOutcome
  | [] => .ok .pending
  | round :: rest =>
    if pollGuard lastValidBlockHeight round then do
      let checked ← pollCheck round.bundleStatuses
      match checked with
      | some txId => .ok (.success txId)
      | none => pollLoop lastValidBlockHeight rest
    else
      .ok .timedOut

/-! ### Concrete fixtures used by the theorems

`sellExampleJson` is the §8 sell event (the `TEST_JSON_SELL` fixture of
`pump_fun_tx.rs`, restricted to the fields the decoder reads). -/

def sellExampleAccounts : List Json :=
  [ .str "4wTV1YmiEkRvAtNtsSGPtUrqRYQMe5SKy2uB4Jjaxnjf",
    .str "CebN5WGQ4jvEPvsVU4EoHEpgzq1VV7AbicfhtW4xC9iM",
    .str "8Y3RkHg21Gj1VBXJi7pcay4qeRqRrY3juZaBac64pump",
    .str "DMFahXyBj2uuRg42yGvoWmkM2XB7MoK7CJwzUCERrRyj",
    .str "AT9MPiGshbqzZCjwCX9RYaJKgHVRErhZHCfTWdh4h2eL",
    .str "FQ9F48FX6g4h88ghvofUDS2d7SZumDSQUjwpLZVk7gXs",
    .str "Hf7pVwBoMkPNrwfiLb5Pwx3f7Mtxerk2VokB3URBX6MV",
    .str "11111111111111111111111111111111",
    .str "ATokenGPvbdGVxr1b2hvZbsiqW5xWH25efTNsLJA8knL",
    .str "TokenkegQfeZyiNwAJbNbGKPFXCWuBvf9Ss623VQ5DA",
    .str "Ce6TQqeHC9p8KetsN6JsjHK7UTZk7nasjjnr7XxXp9F1",
    .str "6EF8rrecthR5Dkzon8Nwu78hRvfCKubJ14M5uBEwF6P" ]

def sellExampleSignatureStr : String :=
  "54aBiJz2eWtNEA6giPNz1MXPjmqFJGa3jnTN1XY6cUqqueJLxvn35ghBMtxn9iMvTnoHMxCa8eVbkbMMktZRFtV"

def sellExampleInnerInstructions : Json :=
  .arr [ .obj [("index", .num 2), ("instructions", .arr
    [ .obj [("program", .str "spl-token"),
        ("programId", .str "TokenkegQfeZyiNwAJbNbGKPFXCWuBvf9Ss623VQ5DA"),
        ("parsed", .obj [("info", .obj
          [("amount", .str "2948735678665"),
           ("authority", .str "Hf7pVwBoMkPNrwfiLb5Pwx3f7Mtxerk2VokB3URBX6MV"),
           ("destination", .str "AT9MPiGshbqzZCjwCX9RYaJKgHVRErhZHCfTWdh4h2eL"),
           ("source", .str "FQ9F48FX6g4h88ghvofUDS2d7SZumDSQUjwpLZVk7gXs")]),
          ("type", .str "transfer")]),
        ("stackHeight", .num 2)],
      .obj [("programId", .str "6EF8rrecthR5Dkzon8Nwu78hRvfCKubJ14M5uBEwF6P"),
        ("accounts", .arr [.str "Ce6TQqeHC9p8KetsN6JsjHK7UTZk7nasjjnr7XxXp9F1"]),
        ("stackHeight", .num 2)] ])] ]

def sellExampleJson : Json :=
  .obj [("jsonrpc", .str "2.0"), ("method", .str "transactionNotification"),
    ("params", .obj [("subscription", .num 132442246888657),
      ("result", .obj [
        ("transaction", .obj [
          ("transaction", .obj [
            ("signatures", .arr [.str sellExampleSignatureStr]),
            ("message", .obj [
              ("instructions", .arr [
                .obj [("programId", .str "ComputeBudget111111111111111111111111111111"),
                  ("accounts", .arr []), ("data", .str "3agR2zuU7Zf5")],
                .obj [("programId", .str "ComputeBudget111111111111111111111111111111"),
                  ("accounts", .arr []), ("data", .str "E7NaRd")],
                .obj [("programId", .str "6EF8rrecthR5Dkzon8Nwu78hRvfCKubJ14M5uBEwF6P"),
                  ("accounts", .arr sellExampleAccounts),
                  ("data", .str "5jRcjdixRUDeyhgJJAYb4uu95HWFA2XTm")] ])])]),
          ("meta", .obj [("innerInstructions", sellExampleInnerInstructions)])]),
        ("signature", .str sellExampleSignatureStr),
        ("slot", .num 304522881)])])]

/-- Account roles of the sell example's Pump.fun instruction
(indices 2, 3, 4 of its 12-entry account list). -/
def sellExampleMemeAccounts : PumpFunAccounts :=
  { mint := "8Y3RkHg21Gj1VBXJi7pcay4qeRqRrY3juZaBac64pump"
    bonding_curve := "DMFahXyBj2uuRg42yGvoWmkM2XB7MoK7CJwzUCERrRyj"
    associated_bonding_curve := "AT9MPiGshbqzZCjwCX9RYaJKgHVRErhZHCfTWdh4h2eL" }

/-- The decode of `sellExampleJson` (checked below against the decoder). -/
def sellExpected : PumpFunTx :=
  { signature := some sellExampleSignatureStr
    accounts := some sellExampleMemeAccounts
    ix_data := some
      { instruction := PUMP_FUN_ACTION_SELL
        instruction_name := "sell"
        amount := 2948735678665
        sol := 1234 }
    inner_ix_data := some { amount := 0, sol := 0, fee := 0 }
    compute_unit_limit := 320000
    compute_unit_price := 2678910 }

/-- A crafted event whose Pump.fun instruction payload decodes to the Sell
opcode but whose inner instructions contain a native transfer of 77
lamports to the fee recipient: the inner-amount scan matches it even
though the trade is a Sell. -/
def craftedSellJson : Json :=
  .obj [("params", .obj [
    ("result", .obj [
      ("transaction", .obj [
        ("transaction", .obj [
          ("message", .obj [
            ("instructions", .arr [
              .obj [("programId", .str "6EF8rrecthR5Dkzon8Nwu78hRvfCKubJ14M5uBEwF6P"),
                ("accounts", .arr sellExampleAccounts),
                ("data", .str "5jRcjdixRUDeyhgJJAYb4uu95HWFA2XTm")] ])])]),
        ("meta", .obj [("innerInstructions", .arr [
          .obj [("index", .num 0), ("instructions", .arr [
            .obj [("programId", .str "11111111111111111111111111111111"),
              ("parsed", .obj [("info", .obj
                [("destination", .str "CebN5WGQ4jvEPvsVU4EoHEpgzq1VV7AbicfhtW4xC9iM"),
                 ("lamports", .num 77),
                 ("source", .str "Hf7pVwBoMkPNrwfiLb5Pwx3f7Mtxerk2VokB3URBX6MV")]),
                ("type", .str "transfer")])] ])] ])])]),
      ("signature", .str "craftedSellSignature")])])]

/-- A bundle-status response reporting `confirmed` with inner transaction
id `txId`. -/
def confirmedStatusesJson (txId : String) : Json :=
  .obj [("result", .obj [("value", .arr [
    .obj [("confirmation_status", .str "confirmed"),
      ("transactions", .arr [.str txId])] ])])]

/-- A bundle-status response still pending (empty value array). -/
def pendingStatusesJson : Json :=
  .obj [("result", .obj [("value", .arr [])])]

/-- A transaction-notification envelope with the given top-level
instruction list (the only part of the envelope the account extractors
read besides the signature). -/
def mkTxMsgJson (instructions : List Json) : Json :=
  .obj [("params", .obj [
    ("result", .obj [
      ("transaction", .obj [
        ("transaction", .obj [
          ("message", .obj [("instructions", .arr instructions)])])])]),
      ("signature", .str "someSignature")])]

/-- A Raydium swap instruction record with the given account list. -/
def mkRaydiumIx (accounts : List Json) : Json :=
  .obj [("programId", .str RAYDIUM_LIQUIDITY_POOL_V4_PROGRAM),
    ("accounts", .arr accounts)]

/-- The account roles read at base offset `k` from account list `l`
(`k + 3` is read only in the 18-account case, where `k = 4`). -/
def raydiumAccountsAtBase (l : List Json) (k : Nat) : RaydiumAccounts :=
  { amm_id := pubkeyToString (l.getD 1 .null)
    amm_open_orders := pubkeyToString (l.getD 3 .null)
    amm_target_orders := if k = 4 then pubkeyToString (l.getD 4 .null) else DEFAULT_PUBKEY
    pool_coin_token_account := pubkeyToString (l.getD (k + 1) .null)
    pool_pc_token_account := pubkeyToString (l.getD (k + 2) .null)
    serum_market := pubkeyToString (l.getD (k + 4) .null)
    serum_bids := pubkeyToString (l.getD (k + 5) .null)
    serum_asks := pubkeyToString (l.getD (k + 6) .null)
    serum_event_queue := pubkeyToString (l.getD (k + 7) .null)
    serum_coin_vault := pubkeyToString (l.getD (k + 8) .null)
    serum_pc_vault := pubkeyToString (l.getD (k + 9) .null)
    serum_vault_signer := pubkeyToString (l.getD (k + 10) .null)
    user_source_token_account := pubkeyToString (l.getD (k + 11) .null)
    user_destination_token_account := pubkeyToString (l.getD (k + 12) .null)
    user_source_owner := pubkeyToString (l.getD (k + 13) .null) }

/-- A 19-entry account list with distinguishable entries. -/
def nineteenAccounts : List Json :=
  [ .str "a0", .str "a1", .str "a2", .str "a3", .str "a4", .str "a5",
    .str "a6", .str "a7", .str "a8", .str "a9", .str "a10", .str "a11",
    .str "a12", .str "a13", .str "a14", .str "a15", .str "a16", .str "a17",
    .str "a18" ]

/-- The decode of `craftedSellJson` (checked below): a Sell whose observed
fee field is nonzero. -/
def craftedSellExpected : PumpFunTx :=
  { signature := some "craftedSellSignature"
    accounts := some sellExampleMemeAccounts
    ix_data := some
      { instruction := PUMP_FUN_ACTION_SELL
        instruction_name := "sell"
        amount := 2948735678665
        sol := 1234 }
    inner_ix_data := some { amount := 0, sol := 0, fee := 77 }
    compute_unit_limit := 0
    compute_unit_price := 0 }

/-- The roles the detector extracts from `nineteenAccounts` (base offset 3,
since 19 is not the 18-account shape). -/
def nineteenExpected : RaydiumAccounts :=
  { amm_id := "a1", amm_open_orders := "a3", amm_target_orders := DEFAULT_PUBKEY
    pool_coin_token_account := "a4", pool_pc_token_account := "a5"
    serum_market := "a7", serum_bids := "a8", serum_asks := "a9"
    serum_event_queue := "a10", serum_coin_vault := "a11"
    serum_pc_vault := "a12", serum_vault_signer := "a13"
    user_source_token_account := "a14", user_destination_token_account := "a15"
    user_source_owner := "a16" }

/-- A fully-populated decoded Raydium buy with the target-orders role
present. -/
def c5Accounts : RaydiumAccounts :=
  { amm_id := "AMM", amm_open_orders := "OPEN", amm_target_orders := "TARGET"
    pool_coin_token_account := "POOLCOIN", pool_pc_token_account := "POOLPC"
    serum_market := "MARKET", serum_bids := "BIDS", serum_asks := "ASKS"
    serum_event_queue := "EVQ", serum_coin_vault := "CVAULT"
    serum_pc_vault := "PCVAULT", serum_vault_signer := "VSIGNER"
    user_source_token_account := "USRC", user_destination_token_account := "UDST"
    user_source_owner := "UOWN" }

/-- Same roles with the optional target-orders role absent (default key). -/
def c5AccountsNoTarget : RaydiumAccounts :=
  { c5Accounts with amm_target_orders := DEFAULT_PUBKEY }

def c5Tx : RaydiumMemeTx :=
  { signature := some "copiedSig"
    accounts := some c5Accounts
    ix_data := some (.baseIn { instruction := 9, amount_in := 5, minimum_amount_out := 6 })
    inner_ix_data := some { source_amount := 1, dest_amount := 2 }
    meme_trade_data := some { meme_mint := "MEMEMINT", operation := 1 } }

def c5TxNoTarget : RaydiumMemeTx := { c5Tx with accounts := some c5AccountsNoTarget }

/-- A concrete stand-in for the associated-token-address derivation. -/
def c5Ata (owner mint : String) : String := owner ++ "@" ++ mint

/-- The instruction list `compose_and_send` produces for `c5Tx`. -/
def c5Instrs : List Instruction :=
  [ createAtaIdempotentIx "UOWN2" "UOWN2" "MEMEMINT",
    { program_id := RAYDIUM_LIQUIDITY_POOL_V4_PROGRAM
      accounts := raydiumSwapAccountList c5Accounts
        (c5Ata "UOWN2" WSOL_MINT) (c5Ata "UOWN2" "MEMEMINT") "UOWN2"
      data := 9 :: (natToLeBytes 8 1000 ++ natToLeBytes 8 0) } ]

/-- A Pump.fun instruction with a 3-entry account list (the repo's own
"not enough accounts" test shape). -/
def shortPumpIx : Json :=
  .obj [("programId", .str PUMP_FUN_PROGRAM),
    ("accounts", .arr [.num 1, .num 2, .num 3])]

/-- A database with no cached accounts. -/
def emptyDb : PumpFunDb := ⟨fun _ => .ok none, fun _ => .ok none⟩

/-! ### Helper lemmas -/

theorem bindE_ok {α β : Type} (a : α) (f : α → Except String β) :
    (Except.ok a >>= f) = f a := rfl

theorem bindE_err {α β : Type} (e : String) (f : α → Except String β) :
    ((Except.error e : Except String α) >>= f) = .error e := rfl

theorem vecIdx_eq_ok_of_lt {l : List Json} {i : Nat} (h : i < l.length) :
    vecIdx l i = .ok (l.getD i .null) := by
  simp [vecIdx, List.get?_eq_getElem?, List.getElem?_eq_getElem h,
    List.getD_eq_getElem?_getD]

theorem vecIdx_eq_error_of_le {l : List Json} {i : Nat} (h : l.length ≤ i) :
    vecIdx l i = .error "index out of bounds" := by
  simp [vecIdx, List.get?_eq_getElem?, List.getElem?_eq_none_iff.mpr h]

theorem bind_vecIdx_err {α : Type} {l : List Json} {i : Nat} (hi : l.length ≤ i)
    (f : Json → Except String α) :
    (vecIdx l i >>= f) = .error "index out of bounds" := by
  rw [vecIdx_eq_error_of_le hi]; rfl

theorem bind_vecIdx_ok {α : Type} {l : List Json} {i : Nat} (hi : i < l.length)
    (f : Json → Except String α) :
    (vecIdx l i >>= f) = f (l.getD i .null) := by
  rw [vecIdx_eq_ok_of_lt hi]; rfl

theorem mkRaydiumIx_accounts_asArray (l : List Json) :
    ((mkRaydiumIx l).get "accounts").asArray = some l := rfl

theorem raydiumGetAccounts_of_ge17 (l : List Json) (h : 17 ≤ l.length) :
    raydiumGetAccounts (mkRaydiumIx l) =
      .ok (some (raydiumAccountsAtBase l (if l.length = 18 then 4 else 3))) := by
  by_cases h18 : l.length = 18
  · simp [raydiumGetAccounts, mkRaydiumIx_accounts_asArray, h18,
      RAYDIUM_ACCOUNTS_LEN_SWAP_BASE_IN,
      vecIdx_eq_ok_of_lt (show 1 < l.length by omega),
      vecIdx_eq_ok_of_lt (show 3 < l.length by omega),
      vecIdx_eq_ok_of_lt (show 4 < l.length by omega),
      vecIdx_eq_ok_of_lt (show 4 + 1 < l.length by omega),
      vecIdx_eq_ok_of_lt (show 4 + 2 < l.length by omega),
      vecIdx_eq_ok_of_lt (show 4 + 4 < l.length by omega),
      vecIdx_eq_ok_of_lt (show 4 + 5 < l.length by omega),
      vecIdx_eq_ok_of_lt (show 4 + 6 < l.length by omega),
      vecIdx_eq_ok_of_lt (show 4 + 7 < l.length by omega),
      vecIdx_eq_ok_of_lt (show 4 + 8 < l.length by omega),
      vecIdx_eq_ok_of_lt (show 4 + 9 < l.length by omega),
      vecIdx_eq_ok_of_lt (show 4 + 10 < l.length by omega),
      vecIdx_eq_ok_of_lt (show 4 + 11 < l.length by omega),
      vecIdx_eq_ok_of_lt (show 4 + 12 < l.length by omega),
      vecIdx_eq_ok_of_lt (show 4 + 13 < l.length by omega),
      raydiumAccountsAtBase, Except.bind, Bind.bind, Pure.pure, Except.pure]
  · simp [raydiumGetAccounts, mkRaydiumIx_accounts_asArray, h18,
      RAYDIUM_ACCOUNTS_LEN_SWAP_BASE_IN,
      vecIdx_eq_ok_of_lt (show 1 < l.length by omega),
      vecIdx_eq_ok_of_lt (show 3 < l.length by omega),
      vecIdx_eq_ok_of_lt (show 3 + 1 < l.length by omega),
      vecIdx_eq_ok_of_lt (show 3 + 2 < l.length by omega),
      vecIdx_eq_ok_of_lt (show 3 + 4 < l.length by omega),
      vecIdx_eq_ok_of_lt (show 3 + 5 < l.length by omega),
      vecIdx_eq_ok_of_lt (show 3 + 6 < l.length by omega),
      vecIdx_eq_ok_of_lt (show 3 + 7 < l.length by omega),
      vecIdx_eq_ok_of_lt (show 3 + 8 < l.length by omega),
      vecIdx_eq_ok_of_lt (show 3 + 9 < l.length by omega),
      vecIdx_eq_ok_of_lt (show 3 + 10 < l.length by omega),
      vecIdx_eq_ok_of_lt (show 3 + 11 < l.length by omega),
      vecIdx_eq_ok_of_lt (show 3 + 12 < l.length by omega),
      vecIdx_eq_ok_of_lt (show 3 + 13 < l.length by omega),
      raydiumAccountsAtBase, Except.bind, Bind.bind, Pure.pure, Except.pure]

theorem raydiumGetAccounts_err_of_lt17 (l : List Json) (h : l.length < 17) :
    raydiumGetAccounts (mkRaydiumIx l) = .error "index out of bounds" := by
  have h18 : l.length ≠ RAYDIUM_ACCOUNTS_LEN_SWAP_BASE_IN + 1 := by
    simp only [RAYDIUM_ACCOUNTS_LEN_SWAP_BASE_IN]; omega
  simp only [raydiumGetAccounts, mkRaydiumIx_accounts_asArray, h18, if_false]
  by_cases h1 : 1 < l.length
  case neg => exact bind_vecIdx_err (by omega) _
  simp only [bind_vecIdx_ok h1]
  by_cases h3 : 3 < l.length
  case neg => exact bind_vecIdx_err (by omega) _
  simp only [bind_vecIdx_ok h3, pure_bind]
  by_cases h4 : 3 + 1 < l.length
  case neg => exact bind_vecIdx_err (by omega) _
  simp only [bind_vecIdx_ok h4]
  by_cases h5 : 3 + 2 < l.length
  case neg => exact bind_vecIdx_err (by omega) _
  simp only [bind_vecIdx_ok h5]
  by_cases h7 : 3 + 4 < l.length
  case neg => exact bind_vecIdx_err (by omega) _
  simp only [bind_vecIdx_ok h7]
  by_cases h8 : 3 + 5 < l.length
  case neg => exact bind_vecIdx_err (by omega) _
  simp only [bind_vecIdx_ok h8]
  by_cases h9 : 3 + 6 < l.length
  case neg => exact bind_vecIdx_err (by omega) _
  simp only [bind_vecIdx_ok h9]
  by_cases h10 : 3 + 7 < l.length
  case neg => exact bind_vecIdx_err (by omega) _
  simp only [bind_vecIdx_ok h10]
  by_cases h11 : 3 + 8 < l.length
  case neg => exact bind_vecIdx_err (by omega) _
  simp only [bind_vecIdx_ok h11]
  by_cases h12 : 3 + 9 < l.length
  case neg => exact bind_vecIdx_err (by omega) _
  simp only [bind_vecIdx_ok h12]
  by_cases h13 : 3 + 10 < l.length
  case neg => exact bind_vecIdx_err (by omega) _
  simp only [bind_vecIdx_ok h13]
  by_cases h14 : 3 + 11 < l.length
  case neg => exact bind_vecIdx_err (by omega) _
  simp only [bind_vecIdx_ok h14]
  by_cases h15 : 3 + 12 < l.length
  case neg => exact bind_vecIdx_err (by omega) _
  simp only [bind_vecIdx_ok h15]
  exact bind_vecIdx_err (by omega) _

theorem natToLeBytes_length (w n : Nat) : (natToLeBytes w n).length = w := by
  induction w generalizing n with
  | zero => rfl
  | succ w ih => simp [natToLeBytes, ih]

theorem leBytesToNat_natToLeBytes {w n : Nat} (h : n < 2 ^ (8 * w)) :
    leBytesToNat (natToLeBytes w n) = n := by
  induction w generalizing n with
  | zero =>
    interval_cases n
    rfl
  | succ w ih =>
    have hdiv : n / 256 < 2 ^ (8 * w) := by
      apply Nat.div_lt_of_lt_mul
      calc n < 2 ^ (8 * (w + 1)) := h
        _ = 256 * 2 ^ (8 * w) := by ring
    simp only [natToLeBytes, leBytesToNat, List.foldr_cons]
    have := ih hdiv
    simp only [leBytesToNat] at this
    rw [this]
    omega

theorem find?_append_of_all_false {p : Json → Bool} {l₁ : List Json}
    (h : ∀ x ∈ l₁, p x = false) (l₂ : List Json) :
    (l₁ ++ l₂).find? p = l₂.find? p := by
  induction l₁ with
  | nil => rfl
  | cons a l ih =>
    rw [List.cons_append, List.find?]
    rw [h a (List.mem_cons_self _ _)]
    exact ih (fun x hx => h x (List.mem_cons_of_mem _ hx))

theorem foldl_keep_of_all_false {p : Json → Bool} :
    ∀ (l : List Json), (∀ x ∈ l, p x = false) → ∀ st : Option Json,
      l.foldl (fun st instruction => if p instruction then some instruction else st) st = st := by
  intro l
  induction l with
  | nil => intro _ _; rfl
  | cons a l ih =>
    intro h st
    rw [List.foldl_cons, h a (List.mem_cons_self _ _)]
    simp only [Bool.false_eq_true, if_false]
    exact ih (fun x hx => h x (List.mem_cons_of_mem _ hx)) st

theorem lastMatch_eq_none {p : Json → Bool} {l : List Json}
    (h : ∀ x ∈ l, p x = false) : lastMatch p l = none :=
  foldl_keep_of_all_false l h none

theorem pumpParseIxBytes_exact (op : List Nat) (a s : Nat) (rest : List Nat)
    (hop : op.length = 8) (ha : a < 2 ^ 64) (hs : s < 2 ^ 64) :
    pumpParseIxBytes (op ++ natToLeBytes 8 a ++ natToLeBytes 8 s ++ rest) =
      some (op, a, s) := by
  have h1 : (natToLeBytes 8 a).length = 8 := natToLeBytes_length 8 a
  have h2 : (natToLeBytes 8 s).length = 8 := natToLeBytes_length 8 s
  have hassoc : op ++ natToLeBytes 8 a ++ natToLeBytes 8 s ++ rest =
      (op ++ natToLeBytes 8 a) ++ (natToLeBytes 8 s ++ rest) := by
    simp [List.append_assoc]
  have htake : (op ++ natToLeBytes 8 a ++ natToLeBytes 8 s ++ rest).take 8 = op := by
    rw [hassoc, List.append_assoc, List.take_left' hop]
  have hdrop8 : (op ++ natToLeBytes 8 a ++ natToLeBytes 8 s ++ rest).drop 8 =
      natToLeBytes 8 a ++ (natToLeBytes 8 s ++ rest) := by
    rw [hassoc, List.append_assoc, List.drop_left' hop]
  have hdrop16 : (op ++ natToLeBytes 8 a ++ natToLeBytes 8 s ++ rest).drop 16 =
      natToLeBytes 8 s ++ rest := by
    rw [hassoc, List.drop_left' (by rw [List.length_append, hop, h1])]
  unfold pumpParseIxBytes
  rw [if_neg (by simp [hop, h1, h2]; omega)]
  rw [htake, hdrop8, hdrop16, List.take_left' h1, List.take_left' h2,
    leBytesToNat_natToLeBytes (by simpa using ha),
    leBytesToNat_natToLeBytes (by simpa using hs)]

theorem pumpGetAmounts_zero_of_no_match (j : Json) (accounts : PumpFunAccounts)
    (inner : List Json) (hinner : (metaInnerInstructions j).asArray = some inner)
    (hnone : ∀ ix ∈ flattenInnerInstructions inner,
      isSplTransferFromCurve accounts ix = false ∧
      isSolTransferToCurve accounts ix = false ∧
      isFeeTransfer ix = false) :
    pumpGetAmounts j accounts = some (0, 0, 0) := by
  unfold pumpGetAmounts
  rw [hinner]
  simp only [Option.bind_eq_bind, Option.some_bind]
  rw [lastMatch_eq_none (fun x hx => (hnone x hx).1),
    lastMatch_eq_none (fun x hx => (hnone x hx).2.1),
    lastMatch_eq_none (fun x hx => (hnone x hx).2.2)]

theorem pollLoop_success_iff (lvbh : Nat) (rounds : List PollRound) (t : String) :
    pollLoop lvbh rounds = .ok (.success t) ↔
      ∃ pre round rest, rounds = pre ++ round :: rest ∧
        (∀ r ∈ pre, pollGuard lvbh r ∧ pollCheck r.bundleStatuses = .ok none) ∧
        pollGuard lvbh round ∧ pollCheck round.bundleStatuses = .ok (some t) := by
  induction rounds with
  | nil =>
    constructor
    · intro h
      exact absurd h (by simp [pollLoop])
    · rintro ⟨pre, round, rest, heq, -⟩
      exact absurd heq.symm (by simp)
  | cons r rs ih =>
    simp only [pollLoop]
    by_cases hg : pollGuard lvbh r
    · rw [if_pos hg]
      cases hc : pollCheck r.bundleStatuses with
      | error e =>
        rw [bindE_err]
        constructor
        · intro h; exact Except.noConfusion h
        · rintro ⟨pre, round, rest, heq, hpre, hgr, hcr⟩
          cases pre with
          | nil =>
            simp only [List.nil_append] at heq
            injection heq with h1 h2
            subst h1
            rw [hc] at hcr
            exact Except.noConfusion hcr
          | cons p pre' =>
            injection heq with h1 h2
            subst h1
            have := (hpre r (List.mem_cons_self _ _)).2
            rw [hc] at this
            exact Except.noConfusion this
      | ok oc =>
        cases oc with
        | some t' =>
          rw [bindE_ok]
          constructor
          · intro h
            injection h with h'
            injection h' with ht
            subst ht
            exact ⟨[], r, rs, rfl, by simp, hg, hc⟩
          · rintro ⟨pre, round, rest, heq, hpre, hgr, hcr⟩
            cases pre with
            | nil =>
              simp only [List.nil_append] at heq
              injection heq with h1 h2
              subst h1
              rw [hc] at hcr
              injection hcr with h3
              injection h3 with h4
              rw [h4]
            | cons p pre' =>
              injection heq with h1 h2
              subst h1
              have := (hpre r (List.mem_cons_self _ _)).2
              rw [hc] at this
              injection this with h3
              exact Option.noConfusion h3
        | none =>
          rw [bindE_ok]
          rw [ih]
          constructor
          · rintro ⟨pre, round, rest, heq, hpre, hgr, hcr⟩
            refine ⟨r :: pre, round, rest, by rw [List.cons_append, heq], ?_, hgr, hcr⟩
            intro x hx
            rcases List.mem_cons.mp hx with rfl | hx'
            · exact ⟨hg, hc⟩
            · exact hpre x hx'
          · rintro ⟨pre, round, rest, heq, hpre, hgr, hcr⟩
            cases pre with
            | nil =>
              simp only [List.nil_append] at heq
              injection heq with h1 h2
              subst h1
              rw [hc] at hcr
              injection hcr with h3
              exact Option.noConfusion h3
            | cons p pre' =>
              injection heq with h1 h2
              subst h2
              exact ⟨pre', round, rest, rfl,
                fun x hx => hpre x (List.mem_cons_of_mem _ hx), hgr, hcr⟩
    · rw [if_neg hg]
      constructor
      · intro h
        injection h with h'
        exact PollOutcome.noConfusion h'
      · rintro ⟨pre, round, rest, heq, hpre, hgr, hcr⟩
        cases pre with
        | nil =>
          simp only [List.nil_append] at heq
          injection heq with h1 h2
          subst h1
          exact (hg hgr).elim
        | cons p pre' =>
          injection heq with h1 h2
          subst h1
          exact (hg (hpre r (List.mem_cons_self _ _)).1).elim

theorem pollLoop_timedOut_iff (lvbh : Nat) (rounds : List PollRound) :
    pollLoop lvbh rounds = .ok .timedOut ↔
      ∃ pre round rest, rounds = pre ++ round :: rest ∧
        (∀ r ∈ pre, pollGuard lvbh r ∧ pollCheck r.bundleStatuses = .ok none) ∧
        ¬ pollGuard lvbh round := by
  induction rounds with
  | nil =>
    constructor
    · intro h
      exact absurd h (by simp [pollLoop])
    · rintro ⟨pre, round, rest, heq, -⟩
      exact absurd heq.symm (by simp)
  | cons r rs ih =>
    simp only [pollLoop]
    by_cases hg : pollGuard lvbh r
    · rw [if_pos hg]
      cases hc : pollCheck r.bundleStatuses with
      | error e =>
        rw [bindE_err]
        constructor
        · intro h; exact Except.noConfusion h
        · rintro ⟨pre, round, rest, heq, hpre, hgr⟩
          cases pre with
          | nil =>
            simp only [List.nil_append] at heq
            injection heq with h1 h2
            subst h1
            exact (hgr hg).elim
          | cons p pre' =>
            injection heq with h1 h2
            subst h1
            have := (hpre r (List.mem_cons_self _ _)).2
            rw [hc] at this
            exact Except.noConfusion this
      | ok oc =>
        cases oc with
        | some t' =>
          rw [bindE_ok]
          constructor
          · intro h
            injection h with h'
            exact PollOutcome.noConfusion h'
          · rintro ⟨pre, round, rest, heq, hpre, hgr⟩
            cases pre with
            | nil =>
              simp only [List.nil_append] at heq
              injection heq with h1 h2
              subst h1
              exact (hgr hg).elim
            | cons p pre' =>
              injection heq with h1 h2
              subst h1
              have := (hpre r (List.mem_cons_self _ _)).2
              rw [hc] at this
              injection this with h3
              exact Option.noConfusion h3
        | none =>
          rw [bindE_ok, ih]
          constructor
          · rintro ⟨pre, round, rest, heq, hpre, hgr⟩
            refine ⟨r :: pre, round, rest, by rw [List.cons_append, heq], ?_, hgr⟩
            intro x hx
            rcases List.mem_cons.mp hx with rfl | hx'
            · exact ⟨hg, hc⟩
            · exact hpre x hx'
          · rintro ⟨pre, round, rest, heq, hpre, hgr⟩
            cases pre with
            | nil =>
              simp only [List.nil_append] at heq
              injection heq with h1 h2
              subst h1
              exact (hgr hg).elim
            | cons p pre' =>
              injection heq with h1 h2
              subst h2
              exact ⟨pre', round, rest, rfl,
                fun x hx => hpre x (List.mem_cons_of_mem _ hx), hgr⟩
    · rw [if_neg hg]
      constructor
      · intro _
        exact ⟨[], r, rs, rfl, by simp, hg⟩
      · intro _
        rfl

theorem pump_layered (j : Json) (ptx : PumpFunTx)
    (hp : pumpFunNew (some j) = .ok ptx) :
    (ptx.accounts.isSome → ptx.signature.isSome) ∧
    (ptx.ix_data.isSome → ptx.accounts.isSome) ∧
    (ptx.inner_ix_data.isSome → ptx.ix_data.isSome) := by
  simp only [pumpFunNew, okOrPanic, bindE_ok] at hp
  cases hs : getSignature j <;> simp only [hs] at hp
  · cases hp; simp
  · cases ha : pumpGetAccounts j <;> simp only [ha] at hp
    · cases hp; simp
    · cases hd : getPumpFunData j <;> simp only [hd] at hp
      · cases hp; simp
      · rename_i accounts d
        obtain ⟨ins, amount, sol⟩ := d
        cases hm : pumpGetAmounts j accounts <;> simp only [hm] at hp
        · cases hp; simp
        · rename_i t
          obtain ⟨am, so, fe⟩ := t
          cases hcd : getComputeData j <;> simp only [hcd, bindE_err, bindE_ok] at hp
          · exact Except.noConfusion hp
          · cases hp; simp

theorem raydium_layered (j : Json) (resolver : RaydiumResolver) (rtx : RaydiumMemeTx)
    (hr : raydiumNew (some j) resolver = .ok rtx) :
    (rtx.accounts.isSome → rtx.signature.isSome) ∧
    (rtx.ix_data.isSome → rtx.accounts.isSome) ∧
    (rtx.inner_ix_data.isSome → rtx.ix_data.isSome) := by
  simp only [raydiumNew, okOrPanic, bindE_ok] at hr
  cases hs : getSignature j <;> simp only [hs] at hr
  · cases hr; simp
  · cases hix : getRaydiumSwapInstruction j <;> simp only [hix] at hr
    · cases hr; simp
    · rename_i ix
      cases hacc : raydiumGetAccounts ix <;>
        simp only [hacc, bindE_err, bindE_ok] at hr
      · exact Except.noConfusion hr
      · rename_i aopt
        cases aopt <;> simp only [] at hr
        · cases hr; simp
        · rename_i accounts
          cases hrs : resolver accounts <;>
            simp only [hrs, bindE_err, bindE_ok] at hr
          · exact Except.noConfusion hr
          · rename_i mopt
            cases mopt <;> simp only [] at hr
            · cases hr; simp
            · cases hds : (ix.get "data").asStr <;> simp only [hds] at hr
              · cases hr; simp
              · rename_i dataStr
                cases hid : getInstructionData dataStr <;> simp only [hid] at hr
                · cases hr; simp
                · cases ham : raydiumGetAmounts j accounts <;> simp only [ham] at hr
                  · cases hr; simp
                  · rename_i amounts
                    obtain ⟨sa, da⟩ := amounts
                    cases hcd : getComputeData j <;>
                      simp only [hcd, bindE_err, bindE_ok] at hr
                    · exact Except.noConfusion hr
                    · cases hr; simp

/-! ### Claim theorems -/

/-- C1 (amended): the confirmation-polling loop returns the bundle's inner
transaction id as success exactly when the relay reports confirmed at an
iteration whose guard still holds — that is, while the wall-clock timeout
has not elapsed OR the chain height has not passed the blockhash's
last-valid height (the later of the two bounds, not the first) — with all
earlier iterations continuing; and it signals Timeout exactly when an
iteration's guard fails (both bounds exceeded) with all earlier iterations
continuing. -/
theorem pollLoop_confirm_rule (lvbh : Nat) (rounds : List PollRound) :
    (∀ t, pollLoop lvbh rounds = .ok (.success t) ↔
      ∃ pre round rest, rounds = pre ++ round :: rest ∧
        (∀ r ∈ pre, pollGuard lvbh r ∧ pollCheck r.bundleStatuses = .ok none) ∧
        pollGuard lvbh round ∧ pollCheck round.bundleStatuses = .ok (some t)) ∧
    (pollLoop lvbh rounds = .ok .timedOut ↔
      ∃ pre round rest, rounds = pre ++ round :: rest ∧
        (∀ r ∈ pre, pollGuard lvbh r ∧ pollCheck r.bundleStatuses = .ok none) ∧
        ¬ pollGuard lvbh round) :=
  ⟨fun t => pollLoop_success_iff lvbh rounds t, pollLoop_timedOut_iff lvbh rounds⟩

/-- C1 counterexample: with the 60-second wall-clock timeout already
elapsed (70 s) but the chain height (50) still within the blockhash's
last-valid height (100), a confirmed report still returns success — the
claim says every confirmation after the first bound must signal Timeout. -/
theorem pollLoop_confirms_after_timeout_counterexample :
    pollLoop 100 [⟨70000, 50, confirmedStatusesJson "TX"⟩] = .ok (.success "TX") ∧
    ¬ (70000 < POLL_TIMEOUT_MS) :=
  ⟨rfl, by decide⟩

/-- C2 (amended): for parsed (valid-JSON) payloads, the decoders return
without panic provided the stages with unchecked unwraps do not panic: the
compute-data pass for both decoders, and for Raydium additionally the
unchecked account-list indexing and the on-chain resolver. -/
theorem decoders_no_panic_outside_unchecked_stages (j : Json)
    (resolver : RaydiumResolver)
    (hc : ∃ v, getComputeData j = .ok v)
    (hacc : ∀ ix, getRaydiumSwapInstruction j = some ix →
      ∃ v, raydiumGetAccounts ix = .ok v)
    (hres : ∀ accounts, ∃ v, resolver accounts = .ok v) :
    (∃ ptx, pumpFunNew (some j) = .ok ptx) ∧
    (∃ rtx, raydiumNew (some j) resolver = .ok rtx) := by
  obtain ⟨cv, hcv⟩ := hc
  constructor
  · simp only [pumpFunNew, okOrPanic, bindE_ok]
    cases hs : getSignature j <;> simp only []
    · exact ⟨_, rfl⟩
    · cases ha : pumpGetAccounts j <;> simp only []
      · exact ⟨_, rfl⟩
      · cases hd : getPumpFunData j <;> simp only []
        · exact ⟨_, rfl⟩
        · rename_i accounts d
          obtain ⟨ins, amount, sol⟩ := d
          cases hm : pumpGetAmounts j accounts <;> simp only []
          · exact ⟨_, rfl⟩
          · simp only [hcv, bindE_ok]
            exact ⟨_, rfl⟩
  · simp only [raydiumNew, okOrPanic, bindE_ok]
    cases hs : getSignature j <;> simp only []
    · exact ⟨_, rfl⟩
    · cases hix : getRaydiumSwapInstruction j <;> simp only []
      · exact ⟨_, rfl⟩
      · rename_i ix
        obtain ⟨av, hav⟩ := hacc ix hix
        simp only [hav, bindE_ok]
        cases av <;> simp only []
        · exact ⟨_, rfl⟩
        · rename_i accounts
          obtain ⟨rv, hrv⟩ := hres accounts
          simp only [hrv, bindE_ok]
          cases rv <;> simp only []
          · exact ⟨_, rfl⟩
          · cases hds : (ix.get "data").asStr <;> simp only []
            · exact ⟨_, rfl⟩
            · rename_i dataStr
              cases hid : getInstructionData dataStr <;> simp only []
              · exact ⟨_, rfl⟩
              · cases ham : raydiumGetAmounts j accounts <;> simp only []
                · exact ⟨_, rfl⟩
                · rename_i amounts
                  obtain ⟨sa, da⟩ := amounts
                  simp only [hcv, bindE_ok]
                  exact ⟨_, rfl⟩

/-- C2 witness: the sell fixture decodes without panic through both
decoders (with a resolver that rejects the pool). -/
theorem decoders_no_panic_outside_unchecked_stages_witness :
    (∃ ptx, pumpFunNew (some sellExampleJson) = .ok ptx) ∧
    (∃ rtx, raydiumNew (some sellExampleJson) (fun _ => .ok none) = .ok rtx) :=
  decoders_no_panic_outside_unchecked_stages sellExampleJson (fun _ => .ok none)
    ⟨some (320000, 2678910), rfl⟩
    (fun ix hix => by
      rw [show getRaydiumSwapInstruction sellExampleJson = none from rfl] at hix
      exact Option.noConfusion hix)
    (fun _ => ⟨none, rfl⟩)

/-- C2 counterexample: a payload that is not valid JSON makes both decode
entry points panic (the expect on serde parsing), so they do not return a
result for every input payload string. -/
theorem decoders_panic_on_invalid_json_counterexample :
    pumpFunNew none = .error "Invalid JSON" ∧
    raydiumNew none (fun _ => .ok none) = .error "Invalid JSON" :=
  ⟨rfl, rfl⟩

/-- C3 (amended): RaydiumMemeTx::get_accounts performs no length
validation before indexed access: on an instruction whose account list has
fewer than 17 entries it panics with an out-of-bounds access, and it is
exactly the lists with at least 17 entries that are extracted without
panic. -/
theorem raydiumGetAccounts_oob_iff_short_list (l : List Json) :
    raydiumGetAccounts (mkRaydiumIx l) = .error "index out of bounds" ↔
      l.length < 17 := by
  constructor
  · intro h
    by_contra hc
    rw [raydiumGetAccounts_of_ge17 l (Nat.le_of_not_lt hc)] at h
    exact Except.noConfusion h
  · exact raydiumGetAccounts_err_of_lt17 l

/-- C3 counterexample: on an empty account list the extractor performs an
out-of-bounds access (a panic) instead of returning. -/
theorem raydiumGetAccounts_empty_list_panics_counterexample :
    raydiumGetAccounts (mkRaydiumIx []) = .error "index out of bounds" := rfl

/-- C4 (amended): account roles are read starting at base offset 4 exactly
when the account count equals the canonical swap-base-in length plus one
(18, signaling the optional target-orders role), and at base offset 3 for
every other count (of at least 17, below which extraction panics); all
subsequent roles sit at fixed offsets from that base. -/
theorem raydiumGetAccounts_base_offset_rule (l : List Json) (h : 17 ≤ l.length) :
    raydiumGetAccounts (mkRaydiumIx l) =
      .ok (some (raydiumAccountsAtBase l
        (if l.length = RAYDIUM_ACCOUNTS_LEN_SWAP_BASE_IN + 1 then 4 else 3))) :=
  raydiumGetAccounts_of_ge17 l h

/-- C4 witness: the 19-entry list is extracted at base offset 3. -/
theorem raydiumGetAccounts_base_offset_rule_witness :
    raydiumGetAccounts (mkRaydiumIx nineteenAccounts) =
      .ok (some (raydiumAccountsAtBase nineteenAccounts
        (if nineteenAccounts.length = RAYDIUM_ACCOUNTS_LEN_SWAP_BASE_IN + 1
         then 4 else 3))) :=
  raydiumGetAccounts_base_offset_rule nineteenAccounts (by decide)

/-- C4 counterexample: a 19-entry account list (a count different from the
canonical 17) is read at base offset 3, not 4 as the claim states: the
pool-coin role comes from index 3 + 1, not 4 + 1. -/
theorem raydium_base_offset_nineteen_counterexample :
    raydiumGetAccounts (mkRaydiumIx nineteenAccounts) = .ok (some nineteenExpected) ∧
    nineteenAccounts.length ≠ RAYDIUM_ACCOUNTS_LEN_SWAP_BASE_IN ∧
    nineteenExpected.pool_coin_token_account =
      pubkeyToString (nineteenAccounts.getD (3 + 1) Json.null) ∧
    nineteenExpected.pool_coin_token_account ≠
      pubkeyToString (nineteenAccounts.getD (4 + 1) Json.null) :=
  ⟨rfl, by decide, rfl, by decide⟩

/-- C5 (amended): every instruction list the Raydium assembler hands to the
submitter ends with one swap instruction whose account list has exactly 18
entries when the optional target-orders role is present and exactly 17
when it is absent (not 16/17), terminated by the three user-specific
accounts (source token account, destination token account, owner/signer)
in that order. -/
theorem raydium_swap_ix_terminal_layout (tx : RaydiumMemeTx)
    (ata : String → String → String) (owner : String) (maxSolBuy : Nat)
    (instrs : List Instruction)
    (h : raydiumComposeAndSend tx ata owner maxSolBuy = .ok instrs) :
    ∃ front swapIx accounts, tx.accounts = some accounts ∧
      instrs = front ++ [swapIx] ∧
      swapIx.program_id = RAYDIUM_LIQUIDITY_POOL_V4_PROGRAM ∧
      swapIx.accounts.length =
        (if accounts.amm_target_orders ≠ DEFAULT_PUBKEY then 18 else 17) ∧
      ∃ src dst,
        swapIx.accounts.drop (swapIx.accounts.length - 3) =
          [ { pubkey := src, is_signer := false, is_writable := true },
            { pubkey := dst, is_signer := false, is_writable := true },
            { pubkey := owner, is_signer := true, is_writable := true } ] := by
  have hlen : ∀ (acc : RaydiumAccounts) (src dst own : String),
      (raydiumSwapAccountList acc src dst own).length =
        (if acc.amm_target_orders ≠ DEFAULT_PUBKEY then 18 else 17) := by
    intro acc src dst own
    unfold raydiumSwapAccountList
    split <;> simp
  have hdrop : ∀ (acc : RaydiumAccounts) (src dst own : String),
      (raydiumSwapAccountList acc src dst own).drop
          ((raydiumSwapAccountList acc src dst own).length - 3) =
        [ { pubkey := src, is_signer := false, is_writable := true },
          { pubkey := dst, is_signer := false, is_writable := true },
          { pubkey := own, is_signer := true, is_writable := true } ] := by
    intro acc src dst own
    unfold raydiumSwapAccountList
    split <;> rfl
  simp only [raydiumComposeAndSend, okOrPanic] at h
  cases hm : tx.meme_trade_data <;> simp only [hm, bindE_err, bindE_ok] at h
  · exact Except.noConfusion h
  · rename_i mtd
    by_cases hsell : mtd.operation = BOT_RAYDIUM_OPERATION_SELL <;>
      simp only [hsell, if_true, if_false, reduceIte] at h
    · exact Except.noConfusion h
    · cases ha : tx.accounts <;> simp only [ha, bindE_err, bindE_ok] at h
      · exact Except.noConfusion h
      · rename_i accounts
        cases hx : tx.ix_data <;> simp only [hx, bindE_err, bindE_ok] at h
        · exact Except.noConfusion h
        · rename_i ixd
          cases hi : tx.inner_ix_data <;> simp only [hi, bindE_err, bindE_ok] at h
          · exact Except.noConfusion h
          · by_cases hbuy : mtd.operation = BOT_RAYDIUM_OPERATION_BUY <;>
              simp only [hbuy, hsell, if_true, if_false, reduceIte,
                bindE_err, bindE_ok] at h
            · cases h
              refine ⟨[createAtaIdempotentIx owner owner mtd.meme_mint], _, accounts,
                rfl, rfl, rfl, hlen accounts _ _ owner, ?_⟩
              exact ⟨ata owner WSOL_MINT, ata owner mtd.meme_mint,
                hdrop accounts _ _ owner⟩
            · exact Except.noConfusion h

/-- C5 witness: a concrete buy with the target-orders role present. -/
theorem raydium_swap_ix_terminal_layout_witness :
    ∃ front swapIx accounts, c5Tx.accounts = some accounts ∧
      c5Instrs = front ++ [swapIx] ∧
      swapIx.program_id = RAYDIUM_LIQUIDITY_POOL_V4_PROGRAM ∧
      swapIx.accounts.length =
        (if accounts.amm_target_orders ≠ DEFAULT_PUBKEY then 18 else 17) ∧
      ∃ src dst,
        swapIx.accounts.drop (swapIx.accounts.length - 3) =
          [ { pubkey := src, is_signer := false, is_writable := true },
            { pubkey := dst, is_signer := false, is_writable := true },
            { pubkey := "UOWN2", is_signer := true, is_writable := true } ] :=
  raydium_swap_ix_terminal_layout c5Tx c5Ata "UOWN2" 1000 c5Instrs rfl

/-- C5 counterexample: with the optional target-orders role absent, the
emitted swap instruction (the last of the two assembled instructions)
carries 17 accounts, not the claimed 16. -/
theorem raydium_swap_ix_seventeen_counterexample :
    (raydiumComposeAndSend c5TxNoTarget c5Ata "UOWN2" 1000).map
        (fun instrs => instrs.map (fun ix => ix.accounts.length)) = .ok [3, 17] ∧
    c5AccountsNoTarget.amm_target_orders = DEFAULT_PUBKEY ∧
    (17 : Nat) ≠ 16 :=
  ⟨rfl, rfl, by decide⟩

/-- C6 (amended): the direct-buy tool rejects a budget ≤ 0 with
InvalidSolAmount (there is no InvalidBudget variant) and a slippage
outside [0,100] with InvalidSlippage, both before any lookup or
instruction build; the per-event copy flow performs no such validation —
its outcome does not depend on the budget or slippage arguments at all. -/
theorem sizer_validation_flows (db : PumpFunDb) (args : PumpFunBuyArgs)
    (payload : Option Json) (b1 s1 b2 s2 : Nat) :
    (args.max_sol ≤ 0 →
      toolPumpFunBuyCall db args = .error (.invalidSolAmount args.max_sol)) ∧
    (0 < args.max_sol → (args.slippage < 0 ∨ 100 < args.slippage) →
      toolPumpFunBuyCall db args = .error (.invalidSlippage args.slippage)) ∧
    pumpFunComposeAndSend payload b1 s1 = pumpFunComposeAndSend payload b2 s2 := by
  refine ⟨?_, ?_, rfl⟩
  · intro h
    rw [toolPumpFunBuyCall, if_pos h]
  · intro h1 h2
    rw [toolPumpFunBuyCall, if_neg (not_le.mpr h1), if_pos (by
      rcases h2 with h2 | h2
      · exact Or.inl h2
      · exact Or.inr h2)]

/-- C6 witness: budget -1 is rejected as InvalidSolAmount, slippage 200 as
InvalidSlippage, and the copy flow's result on the sell fixture is
unchanged across different budgets and slippages. -/
theorem sizer_validation_flows_witness :
    toolPumpFunBuyCall emptyDb ⟨"MINT", -1, 10⟩ = .error (.invalidSolAmount (-1)) ∧
    toolPumpFunBuyCall emptyDb ⟨"MINT", 1, 200⟩ = .error (.invalidSlippage 200) ∧
    pumpFunComposeAndSend (some sellExampleJson) 7 3 =
      pumpFunComposeAndSend (some sellExampleJson) 1000 88 :=
  ⟨(sizer_validation_flows emptyDb ⟨"MINT", -1, 10⟩ none 0 0 0 0).1 (by norm_num),
   (sizer_validation_flows emptyDb ⟨"MINT", 1, 200⟩ none 0 0 0 0).2.1 (by norm_num)
     (Or.inr (by norm_num)),
   (sizer_validation_flows emptyDb ⟨"MINT", 1, 1⟩ (some sellExampleJson)
     7 3 1000 88).2.2⟩

/-- C6 counterexample: the per-event copy flow accepts a slippage of 200
(outside [0,100]) and a budget of 0 (≤ 0) and still builds an
instruction plan, instead of rejecting with InvalidSlippage or
InvalidBudget. -/
theorem copy_flow_no_validation_counterexample :
    pumpFunComposeAndSend (some sellExampleJson) 0 200 =
      .ok { accounts := sellExampleMemeAccounts, is_buy := false } ∧
    ¬ ((200 : Nat) ≤ 100) ∧ (0 : Nat) ≤ 0 :=
  ⟨rfl, by decide, by decide⟩

/-- C7 (amended): the two little-endian u64 declared fields of a Pump.fun
instruction payload are returned exactly as encoded for every opcode; the
observed_amounts triple is (0,0,0) whenever no inner instruction matches
any of the three buy-shaped transfer patterns (the scan never looks at the
opcode); and on the §8 sell example the decode yields declared
amount = 2948735678665, sol = 1234 and observed (0,0,0). -/
theorem pump_declared_exact_observed_conditional_zero :
    (∀ (op : List Nat) (a s : Nat) (rest : List Nat),
      op.length = 8 → a < 2 ^ 64 → s < 2 ^ 64 →
      pumpParseIxBytes (op ++ natToLeBytes 8 a ++ natToLeBytes 8 s ++ rest) =
        some (op, a, s)) ∧
    (∀ (j : Json) (accounts : PumpFunAccounts) (inner : List Json),
      (metaInnerInstructions j).asArray = some inner →
      (∀ ix ∈ flattenInnerInstructions inner,
        isSplTransferFromCurve accounts ix = false ∧
        isSolTransferToCurve accounts ix = false ∧
        isFeeTransfer ix = false) →
      pumpGetAmounts j accounts = some (0, 0, 0)) ∧
    pumpFunNew (some sellExampleJson) = .ok sellExpected :=
  ⟨pumpParseIxBytes_exact, pumpGetAmounts_zero_of_no_match, rfl⟩

/-- C7 witness: the §8 field values round-trip through the byte parser,
and the sell fixture's inner instructions (which match no pattern) give
the zero triple. -/
theorem pump_declared_exact_observed_conditional_zero_witness :
    pumpParseIxBytes (PUMP_FUN_ACTION_SELL ++ natToLeBytes 8 2948735678665 ++
        natToLeBytes 8 1234 ++ []) = some (PUMP_FUN_ACTION_SELL, 2948735678665, 1234) ∧
    pumpGetAmounts sellExampleJson sellExampleMemeAccounts = some (0, 0, 0) :=
  ⟨pump_declared_exact_observed_conditional_zero.1 PUMP_FUN_ACTION_SELL
      2948735678665 1234 [] (by decide) (by decide) (by decide),
   pump_declared_exact_observed_conditional_zero.2.1 sellExampleJson
      sellExampleMemeAccounts _ rfl (by decide)⟩

/-- C7 counterexample: a crafted event whose payload decodes to the Sell
opcode but whose inner instructions carry a 77-lamport native transfer to
the fee recipient decodes with observed fee 77, not the claimed (0,0,0) —
the reconstruction matches patterns regardless of the opcode. -/
theorem pump_sell_observed_nonzero_counterexample :
    pumpFunNew (some craftedSellJson) = .ok craftedSellExpected ∧
    craftedSellExpected.ix_data = some
      { instruction := PUMP_FUN_ACTION_SELL, instruction_name := "sell"
        amount := 2948735678665, sol := 1234 } ∧
    craftedSellExpected.inner_ix_data = some { amount := 0, sol := 0, fee := 77 } ∧
    ({ amount := 0, sol := 0, fee := 77 } : PumpInnerIxData) ≠
      { amount := 0, sol := 0, fee := 0 } :=
  ⟨rfl, rfl, rfl, by decide⟩

/-- C8: an event from which no signature can be extracted decodes to the
fully default result in both decoders: every optional field absent and
both compute hints zero. -/
theorem decode_default_when_no_signature (j : Json) (resolver : RaydiumResolver)
    (h : getSignature j = none) :
    pumpFunNew (some j) = .ok
      { signature := none, accounts := none, ix_data := none,
        inner_ix_data := none, compute_unit_limit := 0, compute_unit_price := 0 } ∧
    raydiumNew (some j) resolver = .ok
      { signature := none, accounts := none, ix_data := none, inner_ix_data := none,
        meme_trade_data := none, compute_unit_limit := 0, compute_unit_price := 0 } := by
  constructor
  · simp only [pumpFunNew, okOrPanic, bindE_ok, h]
  · simp only [raydiumNew, okOrPanic, bindE_ok, h]

/-- C8 witness: the null event has no signature and decodes to the
default records. -/
theorem decode_default_when_no_signature_witness :
    pumpFunNew (some Json.null) = .ok
      { signature := none, accounts := none, ix_data := none,
        inner_ix_data := none, compute_unit_limit := 0, compute_unit_price := 0 } ∧
    raydiumNew (some Json.null) (fun _ => .ok none) = .ok
      { signature := none, accounts := none, ix_data := none, inner_ix_data := none,
        meme_trade_data := none, compute_unit_limit := 0, compute_unit_price := 0 } :=
  decode_default_when_no_signature Json.null (fun _ => .ok none) rfl

/-- C9: for the first Pump.fun instruction of an event, account extraction
returns absent whenever the account list's length differs from 12, and
with exactly 12 accounts reads the mint, bonding curve and associated
bonding curve from indices 2, 3 and 4. -/
theorem pump_accounts_twelve_rule (pre : List Json) (ix : Json) (post : List Json)
    (l : List Json)
    (hpre : ∀ p ∈ pre, isPumpFunIx p = false)
    (hix : isPumpFunIx ix = true)
    (hacc : ix.get "accounts" = Json.arr l) :
    pumpGetAccounts (mkTxMsgJson (pre ++ ix :: post)) =
      (if l.length = 12 then
        some { mint := pubkeyToString (l.getD 2 .null)
               bonding_curve := pubkeyToString (l.getD 3 .null)
               associated_bonding_curve := pubkeyToString (l.getD 4 .null) }
       else none) := by
  have hfind : findPumpFunInstruction (mkTxMsgJson (pre ++ ix :: post)) = some ix := by
    unfold findPumpFunInstruction
    have harr : (msgInstructions (mkTxMsgJson (pre ++ ix :: post))).asArray =
        some (pre ++ ix :: post) := rfl
    rw [harr]
    simp only [Option.bind_eq_bind, Option.some_bind]
    rw [find?_append_of_all_false hpre, List.find?_cons_of_pos _ hix]
  unfold pumpGetAccounts
  rw [hfind]
  simp only [Option.bind_eq_bind, Option.some_bind]
  rw [hacc]
  simp only [Json.asArray, Option.some_bind]
  by_cases h12 : l.length = 12
  · simp [h12]
  · simp [h12]

/-- C9 witness: a Pump.fun instruction with a 3-entry account list yields
no accounts. -/
theorem pump_accounts_twelve_rule_witness :
    pumpGetAccounts (mkTxMsgJson ([] ++ shortPumpIx :: [])) =
      (if ([Json.num 1, Json.num 2, Json.num 3] : List Json).length = 12 then
        some { mint := pubkeyToString ([Json.num 1, Json.num 2, Json.num 3].getD 2 .null)
               bonding_curve :=
                 pubkeyToString ([Json.num 1, Json.num 2, Json.num 3].getD 3 .null)
               associated_bonding_curve :=
                 pubkeyToString ([Json.num 1, Json.num 2, Json.num 3].getD 4 .null) }
       else none) :=
  pump_accounts_twelve_rule [] shortPumpIx [] [Json.num 1, Json.num 2, Json.num 3]
    (fun p hp => absurd hp (List.not_mem_nil p)) rfl rfl

/-- C10: decoded results of both decoders satisfy the layered-population
invariant: accounts only with a signature, instruction data only with
accounts, inner-instruction (observed) amounts only with instruction
data — the populated fields form a prefix of that chain. -/
theorem decode_layered_population (j : Json) (resolver : RaydiumResolver)
    (ptx : PumpFunTx) (rtx : RaydiumMemeTx)
    (hp : pumpFunNew (some j) = .ok ptx)
    (hr : raydiumNew (some j) resolver = .ok rtx) :
    (ptx.accounts.isSome → ptx.signature.isSome) ∧
    (ptx.ix_data.isSome → ptx.accounts.isSome) ∧
    (ptx.inner_ix_data.isSome → ptx.ix_data.isSome) ∧
    (rtx.accounts.isSome → rtx.signature.isSome) ∧
    (rtx.ix_data.isSome → rtx.accounts.isSome) ∧
    (rtx.inner_ix_data.isSome → rtx.ix_data.isSome) := by
  obtain ⟨p1, p2, p3⟩ := pump_layered j ptx hp
  obtain ⟨r1, r2, r3⟩ := raydium_layered j resolver rtx hr
  exact ⟨p1, p2, p3, r1, r2, r3⟩

/-- C10 witness: the invariant instantiated on the sell fixture's decode
(fully populated on the Pump.fun side, signature-only on the Raydium
side). -/
theorem decode_layered_population_witness :
    (sellExpected.accounts.isSome → sellExpected.signature.isSome) ∧
    (sellExpected.ix_data.isSome → sellExpected.accounts.isSome) ∧
    (sellExpected.inner_ix_data.isSome → sellExpected.ix_data.isSome) ∧
    (({ signature := some sellExampleSignatureStr } : RaydiumMemeTx).accounts.isSome →
      ({ signature := some sellExampleSignatureStr } : RaydiumMemeTx).signature.isSome) ∧
    (({ signature := some sellExampleSignatureStr } : RaydiumMemeTx).ix_data.isSome →
      ({ signature := some sellExampleSignatureStr } : RaydiumMemeTx).accounts.isSome) ∧
    (({ signature := some sellExampleSignatureStr } : RaydiumMemeTx).inner_ix_data.isSome →
      ({ signature := some sellExampleSignatureStr } : RaydiumMemeTx).ix_data.isSome) :=
  decode_layered_population sellExampleJson (fun _ => .ok none) sellExpected
    { signature := some sellExampleSignatureStr } rfl rfl
